import Mathlib

/-! Verification of the social-platform backend and client formatters.

A shallow embedding of the Express/Supabase backend (`server` source file) and
of the browser-side post formatters (`feed.js`), together with theorems that
settle the specification's claims about them.

JavaScript strings are modelled as `List Char`; machine timestamps
(milliseconds since epoch, as produced by `Date.now()`) are modelled as `Int`.
External library calls (validator.js `isEmail`, `bcrypt.hash`, `jwt.sign`,
`jwt.verify`) are modelled as components of an `Env` parameter: the handlers
are parametric in them, exactly as the source is parametric in the library
implementations and the JWT secret.
-/

namespace SocialApp

/-- JS strings, modelled as lists of characters (code points). -/
abbrev Str := List Char

/-- Model of `String.prototype.toLowerCase` on the ASCII range (all inputs the
verified routes lower-case are validated ASCII or treated opaquely). -/
def jsToLower (s : Str) : Str := s.map Char.toLower

/-- The JS whitespace class (`\s`, and the set trimmed by
`String.prototype.trim`): ASCII whitespace plus the Unicode space
characters. -/
def isJsWhitespace (c : Char) : Bool :=
  c = ' ' || c = '\t' || c = '\n' || c = '\r' || c = '\x0b' || c = '\x0c' ||
  c = '\u00a0' || c = '\u1680' || ('\u2000' ≤ c && c ≤ '\u200a') ||
  c = '\u2028' || c = '\u2029' || c = '\u202f' || c = '\u205f' ||
  c = '\u3000' || c = '\ufeff'

/-- Model of `String.prototype.trim`: strip JS whitespace from both ends. -/
def jsTrim (s : Str) : Str :=
  ((s.dropWhile isJsWhitespace).reverse.dropWhile isJsWhitespace).reverse

/-- Model of `str.split(' ')` (single-space separator, JS semantics:
`"".split(' ') = [""]`, adjacent separators yield empty fields). -/
def splitOnSpace : Str → List Str
  | [] => [[]]
  | c :: rest =>
    if c = ' ' then [] :: splitOnSpace rest
    else
      match splitOnSpace rest with
      | [] => [[c]]
      | w :: ws => (c :: w) :: ws

/-! ## Data model

The persisted rows, restricted to the columns the verified routes read or
write. -/

/-- A row of the `users` table. -/
structure UserRow where
  id : Nat
  display_name : Str
  username : Str
  email : Str
  password_hash : Str
  is_admin : Bool
  is_moderator : Bool
  is_verified : Bool
  is_premium : Bool
  is_banned : Bool
  banned_until : Option Int
  created_at : Int
  deriving DecidableEq

/-- A row of the `posts` table. -/
structure PostRow where
  id : Nat
  user_id : Nat
  content : Str
  created_at : Int
  deriving DecidableEq

/-- A row of the `reports` table. -/
structure ReportRow where
  id : Nat
  reporter_id : Nat
  reported_user_id : Nat
  reported_post_id : Nat
  status : Str
  resolved_by : Option Nat
  resolved_at : Option Int
  resolution_notes : Option Str
  deriving DecidableEq

/-- A row of the `admin_actions` audit table. -/
structure AdminActionRow where
  admin_id : Nat
  target_user_id : Nat
  action_type : Str
  reason : Str
  duration_hours : Option Int
  deriving DecidableEq

/-- The database state visible to the verified routes.  `nextId` models the
persistence service's id assignment for inserted rows. -/
structure DB where
  users : List UserRow
  posts : List PostRow
  reports : List ReportRow
  admin_actions : List AdminActionRow
  nextId : Nat
  deriving DecidableEq

/-- The JWT payload signed at register/login and recovered by `jwt.verify`:
`{ id, username, is_admin, is_moderator }`. -/
structure TokenClaims where
  id : Nat
  username : Str
  is_admin : Bool
  is_moderator : Bool
  deriving DecidableEq

/-- The external library functions the handlers call: validator.js's
`isEmail`, `bcrypt.hash` (with the salt fixed by the hashing round), and the
JWT sign/verify pair for the configured secret.  The handlers are parametric
in these, as the source is in its library imports. -/
structure Env where
  isEmail : Str → Bool
  bcryptHash : Str → Str
  bcryptCompare : Str → Str → Bool
  jwtSign : TokenClaims → Str
  jwtVerify : Str → Option TokenClaims

/-- An error response: HTTP status plus the `error` message body. -/
structure ErrorResp where
  status : Nat
  error : Str
  deriving DecidableEq

/-! ## Authentication middleware -/

/-- The token extraction `authHeader && authHeader.split(' ')[1]`, with every JS-falsy outcome
(absent header, empty header, absent index 1, empty token) collapsing to
`none`, exactly as `if (!token)` treats them. -/
def extractToken (authHeader : Option Str) : Option Str :=
  match authHeader with
  | none => none
  | some h =>
    match (splitOnSpace h).get? 1 with
    | none => none
    | some [] => none
    | some t => some t

/-- The `authenticateToken` middleware: missing token responds 401
`Access token required`; a token that fails `jwt.verify` responds 403
`Invalid token`; otherwise the verified claims become `req.user`. -/
def authenticateToken (env : Env) (authHeader : Option Str) :
    Except ErrorResp TokenClaims :=
  match extractToken authHeader with
  | none => .error ⟨401, "Access token required".data⟩
  | some token =>
    match env.jwtVerify token with
    | none => .error ⟨403, "Invalid token".data⟩
    | some user => .ok user

/-- The `requireAdmin` middleware (it runs after `authenticateToken`, so
`req.user` is always present; the source's defensive `!req.user` check is
vacuous at this point). -/
def requireAdmin (user : TokenClaims) : Except ErrorResp Unit :=
  if !user.is_admin then .error ⟨403, "Admin access required".data⟩
  else .ok ()

/-- The `requireModerator` middleware: accepts an admin or a moderator
flag. -/
def requireModerator (user : TokenClaims) : Except ErrorResp Unit :=
  if !user.is_admin && !user.is_moderator then
    .error ⟨403, "Moderator access required".data⟩
  else .ok ()

/-! ## POST /api/auth/register -/

/-- The request body of `POST /api/auth/register`.  `extra` models any
additional JSON fields the client may send; the handler's destructuring
`const { displayName, username, email, password } = req.body` never reads
them. -/
structure RegisterBody where
  displayName : Str
  username : Str
  email : Str
  password : Str
  extra : List (Str × Str)

/-- The character class of the username validator `/^[a-zA-Z0-9_]+$/`. -/
def usernameChar (c : Char) : Bool := c.isAlpha || c.isDigit || c = '_'

/-- The express-validator chain on the register route:
`displayName` length 1–50, `username` length 3–30 matching
`/^[a-zA-Z0-9_]+$/`, `email` passing `isEmail`, `password` length ≥ 6.
Lengths are applied to the raw (untrimmed) field values. -/
def registerValidate (env : Env) (b : RegisterBody) : Bool :=
  (1 ≤ b.displayName.length && b.displayName.length ≤ 50) &&
  (3 ≤ b.username.length && b.username.length ≤ 30) &&
  b.username.all usernameChar &&
  env.isEmail b.email &&
  6 ≤ b.password.length

/-- The register response user: the row with `password_hash` removed by the
rest-spread `const { password_hash, ...userWithoutPassword } = user`. -/
structure PublicUser where
  id : Nat
  display_name : Str
  username : Str
  email : Str
  is_admin : Bool
  is_moderator : Bool
  is_verified : Bool
  is_premium : Bool
  is_banned : Bool
  banned_until : Option Int
  created_at : Int
  deriving DecidableEq

/-- Strip the `password_hash` field from a user row (the rest-spread used by
the register and login handlers before responding). -/
def stripPassword (u : UserRow) : PublicUser :=
  { id := u.id, display_name := u.display_name, username := u.username,
    email := u.email, is_admin := u.is_admin, is_moderator := u.is_moderator,
    is_verified := u.is_verified, is_premium := u.is_premium,
    is_banned := u.is_banned, banned_until := u.banned_until,
    created_at := u.created_at }

/-- Outcome of `POST /api/auth/register`. -/
inductive RegisterResult where
  | validationError                        -- 400, field-level errors
  | usernameExists                         -- 400 `Username already exists`
  | emailExists                            -- 400 `Email already exists`
  | ok (user : PublicUser) (token : Str)   -- 200 `{ user, token }`
  deriving DecidableEq

/-- The `POST /api/auth/register` handler.  The duplicate pre-query filters
rows by `username.eq.<raw input> OR email.eq.<raw input>` (case-sensitive
equality against the stored, lower-cased values), then the insert stores
`username.toLowerCase()` / `email.toLowerCase()` with all four role flags
hard-coded `false`. -/
def register (env : Env) (db : DB) (now : Int) (b : RegisterBody) :
    RegisterResult × DB :=
  if !registerValidate env b then (.validationError, db)
  else
    let existingUser := db.users.filter fun u =>
      u.username = b.username || u.email = b.email
    let existingUsername := existingUser.find? fun u => u.username = b.username
    let existingEmail := existingUser.find? fun u => u.email = b.email
    if 0 < existingUser.length && existingUsername.isSome then
      (.usernameExists, db)
    else if 0 < existingUser.length && existingEmail.isSome then
      (.emailExists, db)
    else
      let user : UserRow :=
        { id := db.nextId,
          display_name := b.displayName,
          username := jsToLower b.username,
          email := jsToLower b.email,
          password_hash := env.bcryptHash b.password,
          is_admin := false, is_moderator := false,
          is_verified := false, is_premium := false,
          is_banned := false, banned_until := none, created_at := now }
      let token := env.jwtSign
        { id := user.id, username := user.username,
          is_admin := user.is_admin, is_moderator := user.is_moderator }
      (.ok (stripPassword user) token,
       { db with users := db.users ++ [user], nextId := db.nextId + 1 })

/-! ## POST /api/auth/login -/

/-- Outcome of `POST /api/auth/login`. -/
inductive LoginResult where
  | validationError                        -- 400, field-level errors
  | invalidCredentials                     -- 401 `Invalid credentials`
  | ok (user : PublicUser) (token : Str)   -- 200 `{ user, token }`
  deriving DecidableEq

/-- The `POST /api/auth/login` handler.  The lookup
`.or(username.eq.<id>,email.eq.<id>).single()` errors unless exactly one row
matches; both the missing-user and wrong-password paths answer the same 401. -/
def login (env : Env) (db : DB) (identifier password : Str) : LoginResult :=
  if !(identifier.length ≠ 0 && password.length ≠ 0) then .validationError
  else
    match db.users.filter
        (fun u => u.username = identifier || u.email = identifier) with
    | [user] =>
      if !env.bcryptCompare password user.password_hash then .invalidCredentials
      else
        .ok (stripPassword user)
          (env.jwtSign { id := user.id, username := user.username,
                         is_admin := user.is_admin,
                         is_moderator := user.is_moderator })
    | _ => .invalidCredentials

/-! ## POST /api/posts -/

/-- The request body of `POST /api/posts`.  The client
(`FeedManager.createPost`) sends a `userId` field alongside `content`; the
handler reads only `content` and takes the owner from `req.user.id`. -/
structure CreatePostBody where
  userId : Option Nat
  content : Str

/-- Outcome of `POST /api/posts`. -/
inductive CreatePostResult where
  | authError (e : ErrorResp)     -- from `authenticateToken`
  | validationError               -- 400, `content` fails `isLength`
  | ok (post : PostRow)           -- 200, the inserted row
  deriving DecidableEq

/-- The `POST /api/posts` route: `authenticateToken`, then
`body('content').isLength({ min: 1, max: 280 })` on the raw (untrimmed)
content, then insert of `{ user_id: req.user.id, content: content.trim() }`. -/
def createPost (env : Env) (db : DB) (now : Int) (authHeader : Option Str)
    (b : CreatePostBody) : CreatePostResult × DB :=
  match authenticateToken env authHeader with
  | .error e => (.authError e, db)
  | .ok user =>
    if !(1 ≤ b.content.length && b.content.length ≤ 280) then
      (.validationError, db)
    else
      let post : PostRow :=
        { id := db.nextId, user_id := user.id,
          content := jsTrim b.content, created_at := now }
      (.ok post, { db with posts := db.posts ++ [post],
                           nextId := db.nextId + 1 })

/-! ## GET /api/admin/users -/

/-- Query parameters of `GET /api/admin/users`, with their route defaults
`page = 1`, `limit = 50`, `search = ''` (the route coerces them to numbers;
pages are 1-based). -/
structure AdminUsersQuery where
  page : Nat := 1
  limit : Nat := 50
  search : Str := []

/-- Case-insensitive substring test: the PostgREST `ilike.%needle%` filter. -/
def ilikeContains (hay needle : Str) : Bool :=
  (jsToLower hay).tails.any fun t => (jsToLower needle).isPrefixOf t

/-- One step of the stable sort modelling
`.order('created_at', { ascending: false })`: insert a row before the first
strictly older row, keeping rows with equal timestamps in their relative
order. -/
def insertByCreatedDesc (u : UserRow) : List UserRow → List UserRow
  | [] => [u]
  | v :: vs =>
    if v.created_at < u.created_at then u :: v :: vs
    else v :: insertByCreatedDesc u vs

/-- The newest-first ordering applied by the admin user listing. -/
def orderByCreatedDesc (l : List UserRow) : List UserRow :=
  l.foldr insertByCreatedDesc []

/-- Response of `GET /api/admin/users`: the selected rows — `select('*')`,
i.e. full `users` rows — plus the pagination block. -/
structure AdminUsersResp where
  users : List UserRow
  page : Nat
  limit : Nat
  total : Nat
  pages : Nat
  deriving DecidableEq

/-- The `GET /api/admin/users` handler body (after the admin gates): filters
by the optional search (applied only when `search` is truthy, i.e.
non-empty), orders by `created_at` descending, slices
`range(offset, offset + limit - 1)`, and returns the rows of `select('*')`
together with the exact match count. -/
def adminListUsers (db : DB) (q : AdminUsersQuery) : AdminUsersResp :=
  let filtered :=
    if q.search.length ≠ 0 then
      db.users.filter fun u =>
        ilikeContains u.username q.search ||
        ilikeContains u.display_name q.search ||
        ilikeContains u.email q.search
    else db.users
  let sorted := orderByCreatedDesc filtered
  let offset := (q.page - 1) * q.limit
  { users := (sorted.drop offset).take q.limit,
    page := q.page, limit := q.limit, total := filtered.length,
    pages := (filtered.length + q.limit - 1) / q.limit }

/-- The full `GET /api/admin/users` route: `authenticateToken`,
`requireAdmin`, then the handler. -/
def adminUsersRoute (env : Env) (db : DB) (authHeader : Option Str)
    (q : AdminUsersQuery) : Except ErrorResp AdminUsersResp :=
  match authenticateToken env authHeader with
  | .error e => .error e
  | .ok user =>
    match requireAdmin user with
    | .error e => .error e
    | .ok _ => .ok (adminListUsers db q)

/-! ## POST /api/admin/users/:id/ban and /unban -/

/-- Body of the ban route, validated by `body('reason').notEmpty()` and
`body('duration_hours').isInt({ min: 1 })`. -/
structure BanBody where
  reason : Str
  duration_hours : Int

/-- Outcome of the ban/unban/resolve admin mutations. -/
inductive ActionResult where
  | authError (e : ErrorResp)
  | validationError
  | ok
  deriving DecidableEq

/-- The ban update applied to a user row: `is_banned: true`,
`banned_until: new Date(Date.now() + duration_hours * 3600000)`. -/
def banUpdate (now : Int) (durationHours : Int) (u : UserRow) : UserRow :=
  { u with is_banned := true,
           banned_until := some (now + durationHours * 3600000) }

/-- The `POST /api/admin/users/:id/ban` route: admin gates, validation, then
`update(...).eq('id', userId)` on `users` followed by the `'ban'` audit
insert into `admin_actions`. -/
def banUser (env : Env) (db : DB) (now : Int) (authHeader : Option Str)
    (targetId : Nat) (b : BanBody) : ActionResult × DB :=
  match authenticateToken env authHeader with
  | .error e => (.authError e, db)
  | .ok user =>
    match requireAdmin user with
    | .error e => (.authError e, db)
    | .ok _ =>
      if !(b.reason.length ≠ 0 && 1 ≤ b.duration_hours) then
        (.validationError, db)
      else
        let users := db.users.map fun u =>
          if u.id = targetId then banUpdate now b.duration_hours u else u
        let act : AdminActionRow :=
          { admin_id := user.id, target_user_id := targetId,
            action_type := "ban".data, reason := b.reason,
            duration_hours := some b.duration_hours }
        (.ok, { db with users := users,
                        admin_actions := db.admin_actions ++ [act] })

/-- The `POST /api/admin/users/:id/unban` route: admin gates, then
`update({ is_banned: false, banned_until: null })` followed by the `'unban'`
audit insert with the fixed reason `'Manual unban by admin'` (and no
`duration_hours`). -/
def unbanUser (env : Env) (db : DB) (authHeader : Option Str)
    (targetId : Nat) : ActionResult × DB :=
  match authenticateToken env authHeader with
  | .error e => (.authError e, db)
  | .ok user =>
    match requireAdmin user with
    | .error e => (.authError e, db)
    | .ok _ =>
      let users := db.users.map fun u =>
        if u.id = targetId then
          { u with is_banned := false, banned_until := none }
        else u
      let act : AdminActionRow :=
        { admin_id := user.id, target_user_id := targetId,
          action_type := "unban".data,
          reason := "Manual unban by admin".data,
          duration_hours := none }
      (.ok, { db with users := users,
                      admin_actions := db.admin_actions ++ [act] })

/-! ## GET /api/admin/analytics -/

/-- The stub revenue block the analytics route returns verbatim. -/
structure RevenueStats where
  total_revenue : Nat
  premium_users : Nat
  conversion_rate : Nat
  deriving DecidableEq

/-- Response of `GET /api/admin/analytics`. -/
structure AnalyticsResp where
  user_growth : Nat
  total_posts : Nat
  active_today : Nat
  revenue : RevenueStats
  deriving DecidableEq

/-- The `GET /api/admin/analytics` handler body: accepts a `period` query
parameter (default `'7d'`) but never uses it; counts all `users` and `posts`
rows ever created; `active_today` is `Math.floor(Math.random() * 100) + 50`,
modelled by the draw `rand` (the floored random value in `0..99` is
`rand % 100`). -/
def analytics (db : DB) (period : Str) (rand : Nat) : AnalyticsResp :=
  { user_growth := db.users.length,
    total_posts := db.posts.length,
    active_today := rand % 100 + 50,
    revenue := { total_revenue := 0, premium_users := 0,
                 conversion_rate := 0 } }

/-- The full `GET /api/admin/analytics` route behind the admin gates. -/
def analyticsRoute (env : Env) (db : DB) (authHeader : Option Str)
    (period : Str) (rand : Nat) : Except ErrorResp AnalyticsResp :=
  match authenticateToken env authHeader with
  | .error e => .error e
  | .ok user =>
    match requireAdmin user with
    | .error e => .error e
    | .ok _ => .ok (analytics db period rand)

/-! ## POST /api/moderation/reports/:id/resolve -/

/-- The accepted `action` values:
`body('action').isIn(['dismiss', 'warn', 'ban', 'delete'])`. -/
def resolveActions : List Str :=
  ["dismiss".data, "warn".data, "ban".data, "delete".data]

/-- The resolution update applied to the targeted report row. -/
def resolveUpdate (modId : Nat) (now : Int) (notes : Option Str)
    (r : ReportRow) : ReportRow :=
  { r with status := "resolved".data, resolved_by := some modId,
           resolved_at := some now, resolution_notes := notes }

/-- The `POST /api/moderation/reports/:id/resolve` route: auth and moderator
gates, action validation, then `update(...).eq('id', reportId)` on
`reports`.  The subsequent `if (action === 'ban') { } else if
(action === 'delete') { }` branches are empty in the source, so the state is
returned unchanged by them. -/
def resolveReport (env : Env) (db : DB) (now : Int) (authHeader : Option Str)
    (reportId : Nat) (action : Str) (notes : Option Str) :
    ActionResult × DB :=
  match authenticateToken env authHeader with
  | .error e => (.authError e, db)
  | .ok user =>
    match requireModerator user with
    | .error e => (.authError e, db)
    | .ok _ =>
      if !(resolveActions.contains action) then (.validationError, db)
      else
        let reports := db.reports.map fun r =>
          if r.id = reportId then resolveUpdate user.id now notes r else r
        let db' := { db with reports := reports }
        -- `if (action === 'ban') { /* Implement ban logic */ }`
        -- `else if (action === 'delete') { /* Implement content deletion */ }`
        let db' := if action = "ban".data then db'
                   else if action = "delete".data then db'
                   else db'
        (.ok, db')

/-! ## Client-side post formatters (`feed.js`)

`String.prototype.replace(/…/g, …)` with the source's three patterns is
modelled by left-to-right scanners: at each position the pattern is tried
(greedily, as the regexes are backtracking-free here); on a match the
replacement — with the capture substituted for `$1` — is emitted and scanning
resumes after the match, otherwise one character is copied. -/

/-- JS `\w` (the default, non-Unicode regex word class `[A-Za-z0-9_]`). -/
def wordChar (c : Char) : Bool := c.isAlpha || c.isDigit || c = '_'

/-- Model of `str.replace(/c/g, repl)` for a single-character pattern `c`. -/
def replaceCharBy (target : Char) (repl : Str) (s : Str) : Str :=
  s.flatMap fun ch => if ch = target then repl else [ch]

/-- Try the scheme prefix `p` at the head of `s`, then take the greedy
non-empty `[^\s]+` body: one alternative of `/(https?:\/\/[^\s]+)/`. -/
def matchUrlPrefix (p s : Str) : Option (Str × Str) :=
  if p.isPrefixOf s then
    let rest := s.drop p.length
    let body := rest.takeWhile fun c => !isJsWhitespace c
    if body.length = 0 then none
    else some (p ++ body, rest.drop body.length)
  else none

/-- Match `/(https?:\/\/[^\s]+)/` at the head of `s`: the optional `s?` is greedy,
so `https://` is tried before `http://`. -/
def matchUrl (s : Str) : Option (Str × Str) :=
  match matchUrlPrefix ("https://".data) s with
  | some r => some r
  | none => matchUrlPrefix ("http://".data) s

theorem matchUrlPrefix_rest_lt {p s url r : Str}
    (hp : p.length ≠ 0) (h : matchUrlPrefix p s = some (url, r)) :
    r.length < s.length := by
  simp only [matchUrlPrefix] at h
  split at h
  next hpre =>
    split at h
    next => simp at h
    next hbody =>
      have hle : p.length ≤ s.length :=
        (List.isPrefixOf_iff_prefix.mp hpre).length_le
      simp only [Option.some.injEq, Prod.mk.injEq] at h
      have hr := h.2
      subst hr
      simp only [List.length_drop]
      omega
  next => simp at h

theorem matchUrl_rest_lt {s url r : Str}
    (h : matchUrl s = some (url, r)) : r.length < s.length := by
  unfold matchUrl at h
  split at h
  case h_1 heq =>
    simp only [Option.some.injEq] at h
    subst h
    exact matchUrlPrefix_rest_lt (by decide) heq
  case h_2 =>
    exact matchUrlPrefix_rest_lt (by decide) h

/-- Model of `formatted.replace(/(https?:\/\/[^\s]+)/g,
'<a href="$1" target="_blank" rel="noopener">$1</a>')`. -/
def replaceUrl (s : Str) : Str :=
  match s with
  | [] => []
  | c :: rest =>
    match h : matchUrl (c :: rest) with
    | some (url, rest') =>
      ("<a href=\"".data) ++ url ++
        ("\" target=\"_blank\" rel=\"noopener\">".data) ++ url ++
        ("</a>".data) ++ replaceUrl rest'
    | none => c :: replaceUrl rest
termination_by s.length
decreasing_by
  · exact matchUrl_rest_lt h
  · simp

/-- Model of `str.replace(/m(\w+)/g, pre ++ m ++ $1 ++ post)` for a one-character
marker `m` followed by a non-empty greedy word capture: the shape of both the
hashtag and the mention replace. -/
def replaceTag (marker : Char) (pre post : Str) (s : Str) : Str :=
  match s with
  | [] => []
  | c :: rest =>
    if c = marker then
      let w := rest.takeWhile wordChar
      if w.length = 0 then c :: replaceTag marker pre post rest
      else
        pre ++ (marker :: w) ++ post ++
          replaceTag marker pre post (rest.drop w.length)
    else c :: replaceTag marker pre post rest
termination_by s.length
decreasing_by
  · simp
  · simp only [List.length_cons, List.length_drop]
    omega
  · simp

/-- Model of `formatted.replace(/#(\w+)/g, '<span class="hashtag">#$1</span>')`. -/
def replaceHashtags (s : Str) : Str :=
  replaceTag '#' ("<span class=\"hashtag\">".data) ("</span>".data) s

/-- Model of `formatted.replace(/@(\w+)/g, '<span class="mention">@$1</span>')`. -/
def replaceMentions (s : Str) : Str :=
  replaceTag '@' ("<span class=\"mention\">".data) ("</span>".data) s

namespace FeedManager

/-- Model of `FeedManager.escapeHtml`: the five chained single-character replaces, in
source order `&`, `<`, `>`, `"`, `'`. -/
def escapeHtml (s : Str) : Str :=
  replaceCharBy '\'' ("&#039;".data)
    (replaceCharBy '"' ("&quot;".data)
      (replaceCharBy '>' ("&gt;".data)
        (replaceCharBy '<' ("&lt;".data)
          (replaceCharBy '&' ("&amp;".data) s))))

/-- Model of `FeedManager.formatPostContent`: falsy (empty) content short-circuits to
`''`; otherwise escape, then URL, hashtag and mention replaces in order. -/
def formatPostContent (content : Str) : Str :=
  if content.length = 0 then []
  else replaceMentions (replaceHashtags (replaceUrl (escapeHtml content)))

end FeedManager

namespace ProfileManager

/-- Model of `ProfileManager.formatPostContent`: same pipeline, but its inline escape
replaces only `&`, `<` and `>` — it does not escape quotes. -/
def formatPostContent (content : Str) : Str :=
  if content.length = 0 then []
  else
    let formatted :=
      replaceCharBy '>' ("&gt;".data)
        (replaceCharBy '<' ("&lt;".data)
          (replaceCharBy '&' ("&amp;".data) content))
    replaceMentions (replaceHashtags (replaceUrl formatted))

end ProfileManager

/-! ## Concrete fixtures for witnesses and counterexamples -/

/-- Token claims of a stored admin. -/
def exAdmin : TokenClaims := ⟨1, "admin".data, true, false⟩

/-- Token claims of an ordinary (non-privileged) user. -/
def exUser : TokenClaims := ⟨7, "bob".data, false, false⟩

/-- A concrete instantiation of the external libraries: a simple email check,
an injective stand-in for bcrypt, and a JWT pair accepting exactly the two
tokens `admintok` and `usertok`. -/
def exEnv : Env :=
  { isEmail := fun s => s.contains '@',
    bcryptHash := fun p => 'H' :: p,
    bcryptCompare := fun p h => h = 'H' :: p,
    jwtSign := fun _ => "signed".data,
    jwtVerify := fun t =>
      if t = "admintok".data then some exAdmin
      else if t = "usertok".data then some exUser
      else none }

/-- A stored admin user row, with its bcrypt password hash. -/
def exUserRow : UserRow :=
  { id := 1, display_name := "Admin".data, username := "admin".data,
    email := "admin@x.com".data, password_hash := "BCRYPT-HASH".data,
    is_admin := true, is_moderator := false, is_verified := false,
    is_premium := false, is_banned := false, banned_until := none,
    created_at := 0 }

/-- A database holding that single user. -/
def exDB : DB := ⟨[exUserRow], [], [], [], 2⟩

/-- The empty initial database. -/
def emptyDB : DB := ⟨[], [], [], [], 0⟩

/-! ## Shared lemmas -/

/-- A successful registration appends exactly one row, built from the body's
fields with the username and email lower-cased and every privilege flag
hard-coded `false`. -/
theorem register_ok_users {env : Env} {db : DB} {now : Int}
    {b : RegisterBody} {u : PublicUser} {t : Str} {db' : DB}
    (h : register env db now b = (.ok u t, db')) :
    db'.users = db.users ++
      [{ id := db.nextId, display_name := b.displayName,
         username := jsToLower b.username, email := jsToLower b.email,
         password_hash := env.bcryptHash b.password,
         is_admin := false, is_moderator := false, is_verified := false,
         is_premium := false, is_banned := false, banned_until := none,
         created_at := now }] := by
  simp only [register] at h
  split at h
  next => simp at h
  next =>
    split at h
    next => simp at h
    next =>
      split at h
      next => simp at h
      next =>
        simp only [Prod.mk.injEq] at h
        rw [← h.2]

/-! ## C1 -/

/-- C1 (code bug evidence): the claim says the admin user listing omits the
`password_hash` column, but the handler selects `*`: a `GET /api/admin/users`
request with a valid admin token and the default query, against a database
holding one user whose stored hash is `BCRYPT-HASH`, answers 200 with that
hash in the response body. -/
theorem C1_admin_users_response_contains_password_hash :
    adminUsersRoute exEnv exDB (some ("Bearer admintok".data)) {} =
      .ok { users := [exUserRow], page := 1, limit := 50, total := 1,
            pages := 1 } ∧
    (adminListUsers exDB {}).users.map UserRow.password_hash =
      ["BCRYPT-HASH".data] :=
  ⟨rfl, rfl⟩

/-! ## C2 -/

/-- C2: for every authenticated create-post request, the `user_id` stored on
the created post equals the `id` claim of the bearer token, and the response
and state do not depend on the `userId` field the client sends in the body. -/
theorem C2_create_post_owner_from_token (env : Env) (db : DB) (now : Int)
    (hd : Option Str) (user : TokenClaims)
    (hauth : authenticateToken env hd = .ok user) :
    (∀ b post db', createPost env db now hd b = (.ok post, db') →
        post.user_id = user.id) ∧
    (∀ uid₁ uid₂ content,
        createPost env db now hd ⟨uid₁, content⟩ =
          createPost env db now hd ⟨uid₂, content⟩) := by
  constructor
  · intro b post db' hok
    simp only [createPost, hauth] at hok
    split at hok
    next => simp at hok
    next =>
      simp only [Prod.mk.injEq, CreatePostResult.ok.injEq] at hok
      rw [← hok.1]
  · intro uid₁ uid₂ content
    simp only [createPost, hauth]

/-- Witness for C2 at a concrete token, database and pair of bodies. -/
theorem C2_witness :
    authenticateToken exEnv (some ("Bearer usertok".data)) = .ok exUser ∧
    ((∀ b post db',
        createPost exEnv exDB 0 (some ("Bearer usertok".data)) b =
          (.ok post, db') → post.user_id = exUser.id) ∧
     (∀ uid₁ uid₂ content,
        createPost exEnv exDB 0 (some ("Bearer usertok".data))
            ⟨uid₁, content⟩ =
          createPost exEnv exDB 0 (some ("Bearer usertok".data))
            ⟨uid₂, content⟩)) :=
  ⟨rfl, C2_create_post_owner_from_token exEnv exDB 0
    (some ("Bearer usertok".data)) exUser rfl⟩

/-! ## C3 -/

/-- Whether a register outcome is the 200 success response. -/
def RegisterResult.isOk : RegisterResult → Bool
  | .ok _ _ => true
  | _ => false

/-- First registration body of the C3 counterexample: a mixed-case
username. -/
def dupBody₁ : RegisterBody :=
  ⟨"Alice D".data, "Alice".data, "a@x.com".data, "secret1".data, []⟩

/-- Second registration body of the C3 counterexample: the same username
`Alice`, a fresh email. -/
def dupBody₂ : RegisterBody :=
  ⟨"Alice D".data, "Alice".data, "b@x.com".data, "secret2".data, []⟩

/-- C3 counterexample: the duplicate pre-query filters on the raw request
value while the insert stores the lower-cased one, so a first registration
with username `Alice` succeeds, and a second registration with the same
username `Alice` is not rejected: it also succeeds and inserts a second
`alice` row. -/
theorem C3_counterexample_mixed_case_username :
    (register exEnv emptyDB 0 dupBody₁).1.isOk = true ∧
    (register exEnv (register exEnv emptyDB 0 dupBody₁).2 1 dupBody₂).1.isOk
      = true ∧
    (register exEnv
        (register exEnv emptyDB 0 dupBody₁).2 1 dupBody₂).2.users.map
      UserRow.username = ["alice".data, "alice".data] :=
  ⟨rfl, rfl, rfl⟩

/-- C3 amended: the duplicate rejection holds for values that are already
lower-case (then the stored value equals the queried one).  If a first
registration succeeded and a second valid request repeats its username
(resp. its email, with a username matching no stored row), where the
repeated value is lower-case, then the second request is rejected with the
400 duplicate-username (resp. duplicate-email) error and the database is
unchanged — no row is inserted. -/
theorem C3_amended_lowercase_duplicate_rejected
    (env : Env) (db db₁ : DB) (now now' : Int) (b₁ b₂ : RegisterBody)
    (u : PublicUser) (t : Str)
    (h₁ : register env db now b₁ = (.ok u t, db₁))
    (hv : registerValidate env b₂ = true) :
    ((b₂.username = b₁.username ∧ jsToLower b₂.username = b₂.username) →
       register env db₁ now' b₂ = (.usernameExists, db₁)) ∧
    ((b₂.email = b₁.email ∧ jsToLower b₂.email = b₂.email ∧
        (∀ r ∈ db₁.users, r.username ≠ b₂.username)) →
       register env db₁ now' b₂ = (.emailExists, db₁)) := by
  have husers := register_ok_users h₁
  have hrowmem : ∀ r : UserRow, db₁.users = db.users ++ [r] →
      r ∈ db₁.users := by
    intro r hr
    rw [hr]
    exact List.mem_append_right _ (List.mem_singleton.mpr rfl)
  constructor
  · rintro ⟨hsame, hlower⟩
    have hrowuser :
        (jsToLower b₁.username : Str) = b₂.username := by
      rw [← hsame, hlower]
    have hmem := hrowmem _ husers
    simp only [register, hv, Bool.not_true, Bool.false_eq_true,
      if_false]
    split
    next => rfl
    next hcond =>
      exfalso
      apply hcond
      have hfmem : _ ∈ db₁.users.filter fun r =>
          r.username = b₂.username || r.email = b₂.email :=
        List.mem_filter.mpr ⟨hmem, by simp [hrowuser]⟩
      rw [Bool.and_eq_true]
      refine ⟨?_, ?_⟩
      · simp only [decide_eq_true_eq]
        exact List.length_pos.mpr (List.ne_nil_of_mem hfmem)
      · exact List.find?_isSome.mpr ⟨_, hfmem, by simp [hrowuser]⟩
  · rintro ⟨hsame, hlower, hfresh⟩
    have hrowemail :
        (jsToLower b₁.email : Str) = b₂.email := by
      rw [← hsame, hlower]
    have hmem := hrowmem _ husers
    have hnouser : (db₁.users.filter fun r =>
        r.username = b₂.username || r.email = b₂.email).find?
          (fun r => r.username = b₂.username) = none := by
      rw [List.find?_eq_none]
      intro r hrf
      have := (List.mem_filter.mp hrf).1
      simp only [decide_eq_true_eq]
      exact hfresh r this
    simp only [register, hv, Bool.not_true, Bool.false_eq_true, if_false]
    split
    next hcond =>
      exfalso
      rw [Bool.and_eq_true] at hcond
      rw [hnouser] at hcond
      simp at hcond
    next =>
      split
      next => rfl
      next hcond =>
        exfalso
        apply hcond
        have hfmem : _ ∈ db₁.users.filter fun r =>
            r.username = b₂.username || r.email = b₂.email :=
          List.mem_filter.mpr ⟨hmem, by simp [hrowemail]⟩
        rw [Bool.and_eq_true]
        refine ⟨?_, ?_⟩
        · simp only [decide_eq_true_eq]
          exact List.length_pos.mpr (List.ne_nil_of_mem hfmem)
        · exact List.find?_isSome.mpr ⟨_, hfmem, by simp [hrowemail]⟩

/-- First registration body of the C3 witness: all-lower-case values. -/
def lcBody₁ : RegisterBody :=
  ⟨"Al".data, "alice".data, "a@x.com".data, "secret1".data, []⟩

/-- Second registration body of the C3 witness: the same lower-case username
`alice` and the same lower-case email `a@x.com`. -/
def lcBody₂ : RegisterBody :=
  ⟨"Al".data, "alice".data, "a@x.com".data, "secret2".data, []⟩

/-- The row the first witness registration stores. -/
def lcRow : UserRow :=
  { id := 0, display_name := "Al".data, username := "alice".data,
    email := "a@x.com".data, password_hash := 'H' :: "secret1".data,
    is_admin := false, is_moderator := false, is_verified := false,
    is_premium := false, is_banned := false, banned_until := none,
    created_at := 0 }

/-- The database after the first witness registration. -/
def lcDB : DB := ⟨[lcRow], [], [], [], 1⟩

/-- Witness for C3 at the concrete lower-case registrations. -/
theorem C3_amended_witness :
    (register exEnv emptyDB 0 lcBody₁ =
        (.ok (stripPassword lcRow) ("signed".data), lcDB) ∧
     registerValidate exEnv lcBody₂ = true) ∧
    (((lcBody₂.username = lcBody₁.username ∧
         jsToLower lcBody₂.username = lcBody₂.username) →
        register exEnv lcDB 1 lcBody₂ = (.usernameExists, lcDB)) ∧
     ((lcBody₂.email = lcBody₁.email ∧ jsToLower lcBody₂.email = lcBody₂.email ∧
         (∀ r ∈ lcDB.users, r.username ≠ lcBody₂.username)) →
        register exEnv lcDB 1 lcBody₂ = (.emailExists, lcDB))) :=
  ⟨⟨rfl, rfl⟩,
   C3_amended_lowercase_duplicate_rejected exEnv emptyDB lcDB 0 1
     lcBody₁ lcBody₂ (stripPassword lcRow) ("signed".data) rfl rfl⟩

/-! ## C4 -/

/-- C4 counterexample: the `isLength` validation runs on the raw content, so
a whitespace-only post (a single space, raw length 1) is accepted — the
claim says whitespace-only content must be rejected — and the stored
content is the empty trimmed string. -/
theorem C4_counterexample_whitespace_only_accepted :
    (createPost exEnv exDB 0 (some ("Bearer usertok".data))
        ⟨none, " ".data⟩).1 =
      .ok { id := 2, user_id := 7, content := [], created_at := 0 } :=
  rfl

/-- C4 amended: a create-post request carrying a valid token is accepted iff
the raw (untrimmed) content length is between 1 and 280 — the validator runs
before any trimming — and the stored content is the trimmed string.  In
particular a 281-character content is rejected, a 280-character content is
accepted, and a nonempty whitespace-only content is accepted (stored as the
empty string). -/
theorem C4_amended_accept_iff_raw_length (env : Env) (db : DB) (now : Int)
    (hd : Option Str) (user : TokenClaims) (b : CreatePostBody)
    (hauth : authenticateToken env hd = .ok user) :
    ((∃ post db', createPost env db now hd b = (.ok post, db')) ↔
       (1 ≤ b.content.length ∧ b.content.length ≤ 280)) ∧
    (∀ post db', createPost env db now hd b = (.ok post, db') →
       post.content = jsTrim b.content) := by
  constructor
  · constructor
    · rintro ⟨post, db', hok⟩
      simp only [createPost, hauth] at hok
      split at hok
      next => simp at hok
      next hcond =>
        have h' : ¬b.content = [] ∧ b.content.length ≤ 280 := by
          simpa using hcond
        exact ⟨List.length_pos.mpr h'.1, h'.2⟩
    · intro hlen
      have hc : (decide (1 ≤ b.content.length) &&
          decide (b.content.length ≤ 280)) = true := by
        simp [hlen.1, hlen.2]
      simp only [createPost, hauth, hc, Bool.not_true, Bool.false_eq_true,
        if_false]
      exact ⟨_, _, rfl⟩
  · intro post db' hok
    simp only [createPost, hauth] at hok
    split at hok
    next => simp at hok
    next =>
      simp only [Prod.mk.injEq, CreatePostResult.ok.injEq] at hok
      rw [← hok.1]

/-- Witness for C4 at a concrete token and content. -/
theorem C4_amended_witness :
    authenticateToken exEnv (some ("Bearer usertok".data)) = .ok exUser ∧
    (((∃ post db',
         createPost exEnv exDB 0 (some ("Bearer usertok".data))
             ⟨none, "hello".data⟩ = (.ok post, db')) ↔
        (1 ≤ ("hello".data : Str).length ∧
         ("hello".data : Str).length ≤ 280)) ∧
     (∀ post db',
        createPost exEnv exDB 0 (some ("Bearer usertok".data))
            ⟨none, "hello".data⟩ = (.ok post, db') →
          post.content = jsTrim ("hello".data))) :=
  ⟨rfl, C4_amended_accept_iff_raw_length exEnv exDB 0
    (some ("Bearer usertok".data)) exUser ⟨none, "hello".data⟩ rfl⟩

/-! ## C5 -/

/-- C5 counterexample: a request whose token fails verification is answered
with status 403 (`Invalid token`), not 401 as the claim states — so 403 is
not reserved for insufficient role. -/
theorem C5_counterexample_invalid_token_status_403 :
    authenticateToken exEnv (some ("Bearer badtok".data)) =
      .error ⟨403, "Invalid token".data⟩ ∧
    (403 : Nat) ≠ 401 :=
  ⟨rfl, by decide⟩

/-- C5 amended: the authenticate gate rejects a missing token with 401 and a
token failing verification (expired, malformed, or wrongly signed) with 403
`Invalid token`, regardless of the claims the token purports to carry (the
handler never sees them); the role gates answer 403 as well. -/
theorem C5_amended_auth_gate_statuses (env : Env) (hd : Option Str) :
    (extractToken hd = none →
       authenticateToken env hd =
         .error ⟨401, "Access token required".data⟩) ∧
    (∀ t, extractToken hd = some t → env.jwtVerify t = none →
       authenticateToken env hd = .error ⟨403, "Invalid token".data⟩) ∧
    (∀ u : TokenClaims, u.is_admin = false →
       requireAdmin u = .error ⟨403, "Admin access required".data⟩) ∧
    (∀ u : TokenClaims, u.is_admin = false → u.is_moderator = false →
       requireModerator u = .error ⟨403, "Moderator access required".data⟩) := by
  refine ⟨?_, ?_, ?_, ?_⟩
  · intro hnone
    simp [authenticateToken, hnone]
  · intro t ht hv
    simp [authenticateToken, ht, hv]
  · intro u hu
    simp [requireAdmin, hu]
  · intro u hu hm
    simp [requireModerator, hu, hm]

/-- Witness for C5 at a missing header, a concrete rejected token, and a
non-privileged user's claims. -/
theorem C5_amended_witness :
    authenticateToken exEnv none =
      .error ⟨401, "Access token required".data⟩ ∧
    authenticateToken exEnv (some ("Bearer nota".data)) =
      .error ⟨403, "Invalid token".data⟩ ∧
    requireAdmin exUser = .error ⟨403, "Admin access required".data⟩ ∧
    requireModerator exUser = .error ⟨403, "Moderator access required".data⟩ :=
  ⟨(C5_amended_auth_gate_statuses exEnv none).1 rfl,
   (C5_amended_auth_gate_statuses exEnv (some ("Bearer nota".data))).2.1
     ("nota".data) rfl rfl,
   (C5_amended_auth_gate_statuses exEnv none).2.2.1 exUser rfl,
   (C5_amended_auth_gate_statuses exEnv none).2.2.2 exUser rfl rfl⟩

/-! ## C6 -/

/-- C6: a successful ban with `duration_hours` d sets the target user's
`is_banned` to true and `banned_until` to the request time plus exactly
d hours (d·3600000 ms — within any tolerance), and appends a `ban` audit row
with the request's reason; a successful unban sets `is_banned` false and
`banned_until` null and appends an `unban` audit row whose reason is the
fixed string `Manual unban by admin`. -/
theorem C6_ban_unban_effects (env : Env) (db : DB) (now : Int)
    (hd : Option Str) (admin : TokenClaims) (targetId : Nat) (b : BanBody)
    (hauth : authenticateToken env hd = .ok admin)
    (hadmin : admin.is_admin = true)
    (hreason : b.reason.length ≠ 0) (hdur : 1 ≤ b.duration_hours) :
    ((banUser env db now hd targetId b).1 = .ok ∧
     (∀ (i : Nat) (u : UserRow), db.users[i]? = some u → u.id = targetId →
        (banUser env db now hd targetId b).2.users[i]? =
          some { u with is_banned := true,
                        banned_until :=
                          some (now + b.duration_hours * 3600000) }) ∧
     (banUser env db now hd targetId b).2.admin_actions =
       db.admin_actions ++
         [⟨admin.id, targetId, "ban".data, b.reason,
           some b.duration_hours⟩]) ∧
    ((unbanUser env db hd targetId).1 = .ok ∧
     (∀ (i : Nat) (u : UserRow), db.users[i]? = some u → u.id = targetId →
        (unbanUser env db hd targetId).2.users[i]? =
          some { u with is_banned := false, banned_until := none }) ∧
     (unbanUser env db hd targetId).2.admin_actions =
       db.admin_actions ++
         [⟨admin.id, targetId, "unban".data,
           "Manual unban by admin".data, none⟩]) := by
  have hra : requireAdmin admin = .ok () := by
    simp [requireAdmin, hadmin]
  have hre : ¬ b.reason = [] := by
    intro hnil
    exact hreason (by simp [hnil])
  have hd' : ¬ b.duration_hours < 1 := not_lt.mpr hdur
  have hban : banUser env db now hd targetId b =
      (.ok, { db with
        users := db.users.map fun u =>
          if u.id = targetId then banUpdate now b.duration_hours u else u,
        admin_actions := db.admin_actions ++
          [⟨admin.id, targetId, "ban".data, b.reason,
            some b.duration_hours⟩] }) := by
    simp [banUser, hauth, hra, hre, hd']
  have hunban : unbanUser env db hd targetId =
      (.ok, { db with
        users := db.users.map fun u =>
          if u.id = targetId then
            { u with is_banned := false, banned_until := none }
          else u,
        admin_actions := db.admin_actions ++
          [⟨admin.id, targetId, "unban".data,
            "Manual unban by admin".data, none⟩] }) := by
    simp [unbanUser, hauth, hra]
  refine ⟨⟨?_, ?_, ?_⟩, ⟨?_, ?_, ?_⟩⟩
  · rw [hban]
  · intro i u hu hid
    rw [hban]
    simp [List.getElem?_map, hu, hid, banUpdate]
  · rw [hban]
  · rw [hunban]
  · intro i u hu hid
    rw [hunban]
    simp [List.getElem?_map, hu, hid]
  · rw [hunban]

/-- A stored non-privileged user row, the ban target of the C6 witness. -/
def bobRow : UserRow :=
  { id := 7, display_name := "Bob".data, username := "bob".data,
    email := "bob@x.com".data, password_hash := 'H' :: "pw1234".data,
    is_admin := false, is_moderator := false, is_verified := false,
    is_premium := false, is_banned := false, banned_until := none,
    created_at := 0 }

/-- A database holding the C6 ban target. -/
def banDB : DB := ⟨[bobRow], [], [], [], 8⟩

/-- Witness for C6: a concrete admin bans and unbans user 7. -/
theorem C6_witness :
    ("spam".data : Str).length ≠ 0 ∧ (1 : Int) ≤ 24 ∧
    (banUser exEnv banDB 1000 (some ("Bearer admintok".data)) 7
        ⟨"spam".data, 24⟩).2.users[0]? =
      some { bobRow with is_banned := true,
                         banned_until := some (1000 + 24 * 3600000) } ∧
    (unbanUser exEnv banDB (some ("Bearer admintok".data)) 7).2.users[0]? =
      some { bobRow with is_banned := false, banned_until := none } :=
  ⟨by decide, by decide,
   (C6_ban_unban_effects exEnv banDB 1000 (some ("Bearer admintok".data))
      exAdmin 7 ⟨"spam".data, 24⟩ rfl rfl (by decide) (by decide)).1.2.1
     0 bobRow rfl rfl,
   (C6_ban_unban_effects exEnv banDB 1000 (some ("Bearer admintok".data))
      exAdmin 7 ⟨"spam".data, 24⟩ rfl rfl (by decide) (by decide)).2.2.1
     0 bobRow rfl rfl⟩

/-! ## C7 -/

/-- C7: resolving a report with any accepted action (`dismiss`, `warn`,
`ban` or `delete`) updates only the targeted report row — status
`resolved`, resolver, timestamp, notes — and leaves every user row and
every post row unchanged: the `ban` and `delete` resolution actions ban
nobody and delete nothing. -/
theorem C7_resolve_report_frame (env : Env) (db : DB) (now : Int)
    (hd : Option Str) (user : TokenClaims) (reportId : Nat) (action : Str)
    (notes : Option Str)
    (hauth : authenticateToken env hd = .ok user)
    (hmod : requireModerator user = .ok ())
    (haction : action ∈ resolveActions) :
    (resolveReport env db now hd reportId action notes).1 = .ok ∧
    (resolveReport env db now hd reportId action notes).2.users = db.users ∧
    (resolveReport env db now hd reportId action notes).2.posts = db.posts ∧
    (∀ (i : Nat) (r : ReportRow), db.reports[i]? = some r →
       (resolveReport env db now hd reportId action notes).2.reports[i]? =
         some (if r.id = reportId then
             { r with status := "resolved".data,
                      resolved_by := some user.id,
                      resolved_at := some now, resolution_notes := notes }
           else r)) := by
  have hres : resolveReport env db now hd reportId action notes =
      (.ok, { db with
        reports := db.reports.map fun r =>
          if r.id = reportId then resolveUpdate user.id now notes r
          else r }) := by
    simp [resolveReport, hauth, hmod, haction]
  refine ⟨?_, ?_, ?_, ?_⟩
  · rw [hres]
  · rw [hres]
  · rw [hres]
  · intro i r hr
    rw [hres]
    by_cases hid : r.id = reportId
    · simp [List.getElem?_map, hr, hid, resolveUpdate]
    · simp [List.getElem?_map, hr, hid]

/-- A pending report row, target of the C7 witness. -/
def repRow : ReportRow := ⟨5, 7, 1, 2, "pending".data, none, none, none⟩

/-- A database holding the C7 report. -/
def repDB : DB := ⟨[], [], [repRow], [], 9⟩

/-- Witness for C7: a concrete moderator resolves report 5 with the `ban`
action; the report is updated and users and posts are untouched. -/
theorem C7_witness :
    (resolveReport exEnv repDB 500 (some ("Bearer admintok".data)) 5
        ("ban".data) (some ("ok".data))).2.reports[0]? =
      some { repRow with status := "resolved".data, resolved_by := some 1,
                         resolved_at := some 500,
                         resolution_notes := some ("ok".data) } ∧
    (resolveReport exEnv repDB 500 (some ("Bearer admintok".data)) 5
        ("ban".data) (some ("ok".data))).2.users = repDB.users ∧
    (resolveReport exEnv repDB 500 (some ("Bearer admintok".data)) 5
        ("ban".data) (some ("ok".data))).2.posts = repDB.posts :=
  ⟨(C7_resolve_report_frame exEnv repDB 500 (some ("Bearer admintok".data))
      exAdmin 5 ("ban".data) (some ("ok".data)) rfl rfl
      (by decide)).2.2.2 0 repRow rfl,
   (C7_resolve_report_frame exEnv repDB 500 (some ("Bearer admintok".data))
      exAdmin 5 ("ban".data) (some ("ok".data)) rfl rfl (by decide)).2.1,
   (C7_resolve_report_frame exEnv repDB 500 (some ("Bearer admintok".data))
      exAdmin 5 ("ban".data) (some ("ok".data)) rfl rfl (by decide)).2.2.1⟩

/-! ## C8 -/

/-- C8: two admin analytics requests against the same database state that
differ only in the `period` query parameter (and in the random draw behind
the mock `active_today`) produce equal `user_growth`, `total_posts` and
`revenue` fields: those counts cover all rows ever created and ignore the
requested period. -/
theorem C8_analytics_period_independent (env : Env) (db : DB)
    (hd : Option Str) (p₁ p₂ : Str) (r₁ r₂ : Nat)
    (resp₁ resp₂ : AnalyticsResp)
    (h₁ : analyticsRoute env db hd p₁ r₁ = .ok resp₁)
    (h₂ : analyticsRoute env db hd p₂ r₂ = .ok resp₂) :
    resp₁.user_growth = resp₂.user_growth ∧
    resp₁.total_posts = resp₂.total_posts ∧
    resp₁.revenue = resp₂.revenue := by
  unfold analyticsRoute at h₁ h₂
  cases hA : authenticateToken env hd with
  | error e =>
    simp only [hA] at h₁
    exact absurd h₁ (by simp)
  | ok user =>
    simp only [hA] at h₁ h₂
    cases hR : requireAdmin user with
    | error e =>
      simp only [hR] at h₁
      exact absurd h₁ (by simp)
    | ok uu =>
      simp only [hR, Except.ok.injEq] at h₁ h₂
      rw [← h₁, ← h₂]
      exact ⟨rfl, rfl, rfl⟩

/-- Witness for C8: two concrete admin analytics requests with periods `7d`
and `30d` and different random draws agree on the three fields. -/
theorem C8_witness :
    (analyticsRoute exEnv exDB (some ("Bearer admintok".data))
        ("7d".data) 3 = .ok ⟨1, 0, 53, ⟨0, 0, 0⟩⟩ ∧
     analyticsRoute exEnv exDB (some ("Bearer admintok".data))
        ("30d".data) 99 = .ok ⟨1, 0, 149, ⟨0, 0, 0⟩⟩) ∧
    ((⟨1, 0, 53, ⟨0, 0, 0⟩⟩ : AnalyticsResp).user_growth =
       (⟨1, 0, 149, ⟨0, 0, 0⟩⟩ : AnalyticsResp).user_growth ∧
     (⟨1, 0, 53, ⟨0, 0, 0⟩⟩ : AnalyticsResp).total_posts =
       (⟨1, 0, 149, ⟨0, 0, 0⟩⟩ : AnalyticsResp).total_posts ∧
     (⟨1, 0, 53, ⟨0, 0, 0⟩⟩ : AnalyticsResp).revenue =
       (⟨1, 0, 149, ⟨0, 0, 0⟩⟩ : AnalyticsResp).revenue) :=
  ⟨⟨rfl, rfl⟩,
   C8_analytics_period_independent exEnv exDB
     (some ("Bearer admintok".data)) ("7d".data) ("30d".data) 3 99
     ⟨1, 0, 53, ⟨0, 0, 0⟩⟩ ⟨1, 0, 149, ⟨0, 0, 0⟩⟩ rfl rfl⟩

/-! ## C9 -/

/-- C9: registration can never create a privileged account: the single
inserted row carries `is_admin`, `is_moderator`, `is_verified` and
`is_premium` all false, and the whole outcome is independent of any extra
fields supplied in the request body. -/
theorem C9_register_never_privileged (env : Env) (db : DB) (now : Int)
    (b : RegisterBody) :
    (∀ e, register env db now { b with extra := e } =
       register env db now b) ∧
    (∀ u t db', register env db now b = (.ok u t, db') →
       ∃ row, db'.users = db.users ++ [row] ∧
         row.is_admin = false ∧ row.is_moderator = false ∧
         row.is_verified = false ∧ row.is_premium = false) := by
  constructor
  · intro e
    cases b
    rfl
  · intro u t db' h
    exact ⟨_, register_ok_users h, rfl, rfl, rfl, rfl⟩

/-- Witness for C9 at a concrete successful registration. -/
theorem C9_witness :
    register exEnv emptyDB 0 lcBody₁ =
      (.ok (stripPassword lcRow) ("signed".data), lcDB) ∧
    (∃ row, lcDB.users = emptyDB.users ++ [row] ∧
       row.is_admin = false ∧ row.is_moderator = false ∧
       row.is_verified = false ∧ row.is_premium = false) :=
  ⟨rfl, (C9_register_never_privileged exEnv emptyDB 0 lcBody₁).2
     (stripPassword lcRow) ("signed".data) lcDB rfl⟩

/-! ## C10 -/

/-- Characters of a single-character replace come from the replacement or
are non-target characters of the input. -/
theorem mem_replaceCharBy {a t : Char} {r s : Str}
    (h : a ∈ replaceCharBy t r s) : a ∈ r ∨ (a ∈ s ∧ a ≠ t) := by
  unfold replaceCharBy at h
  rw [List.mem_flatMap] at h
  obtain ⟨c, hc, ha⟩ := h
  by_cases hct : c = t
  · rw [if_pos hct] at ha
    exact Or.inl ha
  · rw [if_neg hct] at ha
    rw [List.mem_singleton] at ha
    exact Or.inr ⟨ha ▸ hc, ha ▸ hct⟩

/-- A single-character replace whose target does not occur is the
identity. -/
theorem replaceCharBy_eq_self {t : Char} {r s : Str}
    (h : ∀ c ∈ s, c ≠ t) : replaceCharBy t r s = s := by
  induction s with
  | nil => rfl
  | cons c cs ih =>
    have hc : c ≠ t := h c (by simp)
    have ih' := ih fun x hx => h x (by simp [hx])
    simp only [replaceCharBy] at ih' ⊢
    simp [if_neg hc, ih']

/-- The shared `&`/`<`/`>` escape introduces no quote characters: its output
on a quote-free input is quote-free. -/
theorem escapeAmpLtGt_no_quotes {s : Str}
    (h : ∀ c ∈ s, c ≠ '"' ∧ c ≠ '\'') :
    ∀ c ∈ replaceCharBy '>' ("&gt;".data)
        (replaceCharBy '<' ("&lt;".data)
          (replaceCharBy '&' ("&amp;".data) s)),
      c ≠ '"' ∧ c ≠ '\'' := by
  have hgt : ∀ c ∈ ("&gt;".data : Str), c ≠ '"' ∧ c ≠ '\'' := by decide
  have hlt : ∀ c ∈ ("&lt;".data : Str), c ≠ '"' ∧ c ≠ '\'' := by decide
  have hamp : ∀ c ∈ ("&amp;".data : Str), c ≠ '"' ∧ c ≠ '\'' := by decide
  intro c hc
  rcases mem_replaceCharBy hc with h3 | ⟨hc, _⟩
  · exact hgt c h3
  · rcases mem_replaceCharBy hc with h2 | ⟨hc, _⟩
    · exact hlt c h2
    · rcases mem_replaceCharBy hc with h1 | ⟨hc, _⟩
      · exact hamp c h1
      · exact h c hc

/-- C10 counterexample: the two client-side formatters disagree on the
one-character input `"`: `FeedManager.formatPostContent` escapes it to
`&quot;` while `ProfileManager.formatPostContent` leaves it unescaped. -/
theorem C10_counterexample_double_quote :
    FeedManager.formatPostContent ("\"".data) ≠
      ProfileManager.formatPostContent ("\"".data) := by
  have h1 : FeedManager.formatPostContent ("\"".data) = "&quot;".data := by
    simp [FeedManager.formatPostContent, FeedManager.escapeHtml,
          replaceCharBy, replaceMentions, replaceHashtags, replaceTag,
          replaceUrl, matchUrl, matchUrlPrefix, wordChar, isJsWhitespace]
  have h2 : ProfileManager.formatPostContent ("\"".data) = "\"".data := by
    simp [ProfileManager.formatPostContent, replaceCharBy, replaceMentions,
          replaceHashtags, replaceTag, replaceUrl, matchUrl, matchUrlPrefix,
          wordChar, isJsWhitespace]
  rw [h1, h2]
  decide

/-- C10 amended: the two formatters agree on every input that contains
neither a double quote nor a single quote — the only difference between
them is that `FeedManager.escapeHtml` additionally escapes `"` and `'`,
which is the identity on such inputs. -/
theorem C10_amended_formatters_agree_without_quotes (s : Str)
    (h : ∀ c ∈ s, c ≠ '"' ∧ c ≠ '\'') :
    FeedManager.formatPostContent s = ProfileManager.formatPostContent s := by
  have h3 := escapeAmpLtGt_no_quotes h
  have hesc : FeedManager.escapeHtml s =
      replaceCharBy '>' ("&gt;".data)
        (replaceCharBy '<' ("&lt;".data)
          (replaceCharBy '&' ("&amp;".data) s)) := by
    unfold FeedManager.escapeHtml
    rw [replaceCharBy_eq_self fun c hc => (h3 c hc).1]
    rw [replaceCharBy_eq_self fun c hc => (h3 c hc).2]
  unfold FeedManager.formatPostContent ProfileManager.formatPostContent
  rw [hesc]

/-- Witness for C10 at a concrete quote-free input. -/
theorem C10_amended_witness :
    (∀ c ∈ ("hi #x".data : Str), c ≠ '"' ∧ c ≠ '\'') ∧
    FeedManager.formatPostContent ("hi #x".data) =
      ProfileManager.formatPostContent ("hi #x".data) :=
  ⟨by decide, C10_amended_formatters_agree_without_quotes ("hi #x".data)
    (by decide)⟩

end SocialApp
